import Mathlib

/-!
Verification development for the issue-sync reconciliation engine.

The definitions below are a shallow embedding of the Go sources:
`lib/comments.go`, `lib/issues.go` and `lib/clients/{jira,github}.go`.
Strings are Lean strings, Go `int` is `Int`, fallible custom-field reads
(`Unknowns.String` / `Unknowns.Int`) are `Option`, fallible remote calls are
`Except String`, and a Go runtime panic is the `GoResult.crash` outcome.
The two package regexes (`jCommentRegex`, `jCommentIDRegex`) are embedded as
terms of a small regex language together with a backtracking matcher that
implements the leftmost-first submatch semantics the Go `regexp` package
gives for these patterns.
-/

namespace IssueSync

/-- Character classes occurring in the two package regexes: `\d`, `\w`
(Go regexp without Unicode classes: ASCII digits, letters and underscore),
and `.` which in Go regexp default mode matches anything except a newline. -/
inductive CharClass where
  | digit
  | word
  | dot
deriving DecidableEq, Repr

/-- Membership of a character in a class, per Go regexp semantics. -/
def CharClass.hasChar (c : CharClass) (ch : Char) : Bool :=
  match c with
  | .digit => ch.isDigit
  | .word => ch.isAlphanum || ch = '_'
  | .dot => ch != '\n'

/-- The fragment of regular expressions needed for `jCommentRegex` and
`jCommentIDRegex`: literals, a captured one-or-more repetition of a character
class (all five capture groups of the source pattern have this shape), a
greedy optional, sequencing, and the end-of-text anchor. -/
inductive Re where
  | lit (s : List Char)
  | grpPlus (n : Nat) (c : CharClass)
  | opt (r : Re)
  | seq (a b : Re)
  | eos
deriving Repr

/-- Greedy Kleene-star over one character class in continuation style:
the deepest consumption is tried first, then backtracks one character at a
time, which is exactly the submatch priority Go regexp gives to a greedy
repetition. -/
def starCls {α : Type} (c : CharClass) : List Char → (List Char → Option α) → Option α
  | [], k => k []
  | ch :: rest, k =>
    if c.hasChar ch then
      match starCls c rest k with
      | some v => some v
      | none => k (ch :: rest)
    else k (ch :: rest)

/-- Backtracking matcher in continuation style. `caps` carries the capture
groups recorded so far; the continuation receives the remaining input and the
updated captures. Alternatives are tried in priority order (greedy first),
so the first success reported agrees with Go regexp submatch extraction. -/
def matchRe {α : Type} :
    Re → List Char → (Nat → Option String) →
    (List Char → (Nat → Option String) → Option α) → Option α
  | .lit s, input, caps, k =>
    if s.isPrefixOf input then k (input.drop s.length) caps else none
  | .grpPlus n c, input, caps, k =>
    match input with
    | [] => none
    | ch :: rest =>
      if c.hasChar ch then
        starCls c rest (fun rem =>
          k rem (fun m =>
            if m = n then some (String.mk (input.take (input.length - rem.length)))
            else caps m))
      else none
  | .opt r, input, caps, k =>
    match matchRe r input caps k with
    | some v => some v
    | none => k input caps
  | .seq a b, input, caps, k =>
    matchRe a input caps (fun rem caps2 => matchRe b rem caps2 k)
  | .eos, input, caps, k =>
    if input.isEmpty then k [] caps else none

/-- Run a `^`-anchored regex against a string, as `FindStringSubmatch` does
for the package patterns (both start with `^`, so a match can only start at
position zero). Returns the capture groups on success. -/
def findSubmatch (r : Re) (s : String) : Option (Nat → Option String) :=
  matchRe r s.data (fun _ => none) (fun _ caps => some caps)

/-- Whether the regex matches the string (Go `MatchString` for the anchored
patterns). -/
def reMatches (r : Re) (s : String) : Bool :=
  (findSubmatch r s).isSome

/-- Capture group `n` of the match, or `none` when the regex does not match. -/
def reGroup (r : Re) (s : String) (n : Nat) : Option String :=
  match findSubmatch r s with
  | none => none
  | some caps => caps n

/-- Embedding of `jCommentRegex` from `lib/comments.go`:
`^Comment \(ID (\d+)\) from GitHub user (\w+) \((.+)\)? at (.+):\n\n(.+)$`.
Note that the literal ` \(` before group 3 is not optional (only the closing
`\)?` is), and `.` does not match a newline. -/
def jCommentRe : Re :=
  .seq (.lit "Comment (ID ".data)
  (.seq (.grpPlus 1 .digit)
  (.seq (.lit ") from GitHub user ".data)
  (.seq (.grpPlus 2 .word)
  (.seq (.lit " (".data)
  (.seq (.grpPlus 3 .dot)
  (.seq (.opt (.lit [')']))
  (.seq (.lit " at ".data)
  (.seq (.grpPlus 4 .dot)
  (.seq (.lit ":\n\n".data)
  (.seq (.grpPlus 5 .dot) .eos))))))))))

/-- Embedding of `jCommentIDRegex` from `lib/comments.go`:
`^Comment \(ID (\d+)\)`, the cheap ID-only pre-filter (not anchored at the
end). -/
def jCommentIDRe : Re :=
  .seq (.lit "Comment (ID ".data)
  (.seq (.grpPlus 1 .digit)
  (.lit [')']))

/-- A GitHub user as consumed by the comment renderer: `GetLogin()` and
`GetName()` (the latter is the empty string when the user has no display
name, matching the Go accessor on a nil field). -/
structure GHUser where
  login : String
  name : String
deriving DecidableEq, Repr

/-- The fields of a `github.IssueComment` used by the engine. `createdAt` is
the creation time already rendered with `commentDateFormat`
(`"15:04 PM, January 2 2006"`); the engine only ever formats and compares
this string. -/
structure GHComment where
  id : Int
  userLogin : String
  body : String
  createdAt : String
deriving DecidableEq, Repr

/-- The fields of a `github.Issue` used by the engine. `labels` is the list
of label names in API order; `commentCount` is `GetComments()`. -/
structure GHIssue where
  id : Int
  number : Int
  title : String
  body : String
  state : String
  userLogin : String
  labels : List String
  commentCount : Nat
deriving DecidableEq, Repr

/-- A `jira.Comment`: tracker-assigned `id` and the body text. -/
structure JIRAComment where
  id : String
  body : String
deriving DecidableEq, Repr

/-- The fields of a `jira.Issue` used by the engine. The custom fields read
through `Fields.Unknowns` are `Option`: `none` models the read returning an
error (field absent or of the wrong type), `some v` a successful read of `v`.
`comments` is the flattened `Fields.Comments.Comments` list (nil comments
field becomes the empty list, as in `UpdateIssue`/`CompareComments`). -/
structure JIRAIssue where
  key : String
  id : String
  summary : String
  description : String
  ghID : Option Int
  ghStatus : Option String
  ghReporter : Option String
  ghLabels : Option String
  comments : List JIRAComment
deriving DecidableEq, Repr

/-- Outcome of a Go function returning `error`, extended with `crash` for a
runtime panic (out-of-range slice index, nil-slice index), which propagates
to the caller instead of being returned. -/
inductive GoResult (α : Type) where
  | ok (val : α)
  | err (msg : String)
  | crash
deriving DecidableEq, Repr

/-- A mutating JIRA client method invocation, recorded so that theorems can
speak about which writes a reconciliation step performs. -/
inductive MutCall where
  | issueCreate
  | issueUpdate (key : String)
  | commentCreate (issueKey : String)
  | commentUpdate (issueKey : String) (commentID : String)
deriving DecidableEq, Repr

/-- Body of a generated JIRA comment, as built by the `fmt.Sprintf` chain in
`CreateComment`/`UpdateComment` (`lib/comments.go` and `lib/clients/jira.go`
both build it identically): the display-name clause ` (<name>)` is appended
only when `GetName()` is non-empty, then ` at <createdAt>:\n\n<body>`. -/
def renderCommentBody (comment : GHComment) (user : GHUser) : String :=
  let body := "Comment (ID " ++ toString comment.id ++ ") from GitHub user " ++ user.login
  let body := if user.name != "" then body ++ " (" ++ user.name ++ ")" else body
  body ++ " at " ++ comment.createdAt ++ ":\n\n" ++ comment.body

/-- `strings.Join(labels, ",")` on the GitHub label names. -/
def joinLabels (labels : List String) : String :=
  String.intercalate "," labels

/-- Embedding of `DidIssueChange` (`lib/issues.go`). Each custom-field read
mirrors `field, err := jIssue.Fields.Unknowns.String(key)` with `field` being
the empty string when `err != nil`. Note the labels clause: the source guard
is `err != nil && strings.Join(labels, ",") != field`, an AND where the other
fields use OR, so a readable labels field never triggers a difference and an
unreadable one triggers it only against a non-empty source join. -/
def didIssueChange (gh : GHIssue) (j : JIRAIssue) : Bool :=
  let d := gh.title != j.summary
  let d := d || (gh.body != j.description)
  let d := d ||
    (match j.ghStatus with
     | some field => gh.state != field
     | none => true)
  let d := d ||
    (match j.ghReporter with
     | some field => gh.userLogin != field
     | none => true)
  let d := d ||
    (match j.ghLabels with
     | some _ => false
     | none => joinLabels gh.labels != "")
  d

/-- The constant `maxJQLIssueLength` of `lib/clients/jira.go`. -/
def maxJQLIssueLength : Nat := 100

/-- Which query `realJIRAClient.ListIssues` builds: `true` when the
id-membership JQL (`project=... AND cf[...] in (...)`) is used, `false` when
the unfiltered project query is used. The source guard is
`len(ids) < maxJQLIssueLength`. -/
def listIssuesUsesJQLFilter (ids : List Int) : Bool :=
  ids.length < maxJQLIssueLength

/-- The post-processing of the searched issues in `realJIRAClient.ListIssues`:
below the threshold the server-filtered result is used as is; otherwise every
fetched project issue whose GitHub-ID custom field reads successfully and is
a member of `ids` is kept (client-side filter). -/
def listIssuesResult (ids : List Int) (fetched : List JIRAIssue) : List JIRAIssue :=
  if ids.length < maxJQLIssueLength then fetched
  else fetched.filter (fun v =>
    match v.ghID with
    | some i => ids.contains i
    | none => false)

/-- The constant `maxBodyLength = 1 << 15` of `lib/clients/jira.go`. -/
def maxBodyLength : Nat := 1 <<< 15

/-- Truncation step of `realJIRAClient.CreateComment`:
`if len(body) >= maxBodyLength { body = body[:maxBodyLength] }`. -/
def createCommentTrunc (body : String) : String :=
  if maxBodyLength ≤ body.length then body.take maxBodyLength else body

/-- Truncation step of `realJIRAClient.UpdateComment`:
`if len(body) < maxBodyLength { body = body[:maxBodyLength] }`. Inside the
branch the slice upper bound exceeds the length, which is a Go runtime panic,
modelled by `none`; outside the branch the body is left as is. -/
def updateCommentTrunc (body : String) : Option String :=
  if body.length < maxBodyLength then none else some body

/-- Abstract JIRA server behaviour for the mutating endpoints, supplied by
the environment: what each remote call would return. -/
structure JIRAServer where
  addCommentResp : String → String → Except String JIRAComment
  putCommentResp : String → String → String → Except String JIRAComment
deriving Inhabited

/-- Embedding of `realJIRAClient.CreateComment`: fetch the GitHub user,
render the comment body, truncate it, then POST it (recorded as a
`commentCreate` call). -/
def realCreateComment (srv : JIRAServer) (getUser : Except String GHUser)
    (issue : JIRAIssue) (comment : GHComment) : GoResult JIRAComment × List MutCall :=
  match getUser with
  | .error e => (.err e, [])
  | .ok user =>
    let body := createCommentTrunc (renderCommentBody comment user)
    match srv.addCommentResp issue.id body with
    | .ok c => (.ok c, [.commentCreate issue.key])
    | .error e => (.err e, [.commentCreate issue.key])

/-- Embedding of `realJIRAClient.UpdateComment`: fetch the GitHub user,
render the comment body, run the (inverted) truncation step — a crash there
happens before any request is built — then PUT the body. -/
def realUpdateComment (srv : JIRAServer) (getUser : Except String GHUser)
    (issue : JIRAIssue) (id : String) (comment : GHComment) :
    GoResult JIRAComment × List MutCall :=
  match getUser with
  | .error e => (.err e, [])
  | .ok user =>
    match updateCommentTrunc (renderCommentBody comment user) with
    | none => (.crash, [])
    | some body =>
      match srv.putCommentResp issue.key id body with
      | .ok c => (.ok c, [.commentUpdate issue.key id])
      | .error e => (.err e, [.commentUpdate issue.key id])

/-- Outcome of one invocation of the wrapped operation `f` inside the backoff
`request` helpers: the values assigned to `ret`, `res` and `err`. `ret` and
`res` are nilable in the source (`interface\x7b\x7d` and a response pointer),
hence `Option`. -/
structure AttemptOut (α β : Type) where
  ret : Option α
  res : Option β
  err : Option String
deriving DecidableEq, Repr

/-- Embedding of `realJIRAClient.request`: `backoff.RetryNotify` keeps
invoking the operation until it succeeds or the `MaxElapsedTime` budget is
spent; the budget is modelled by the length of the attempt list. On success
the current `ret`/`res`/nil are returned; on exhaustion the source runs
`return ret, res, er`, i.e. the last attempt values together with the last
(non-nil) error. -/
def jiraRequest {α β : Type} : AttemptOut α β → List (AttemptOut α β) →
    Option α × Option β × Option String
  | a, [] =>
    match a.err with
    | none => (a.ret, a.res, none)
    | some e => (a.ret, a.res, some e)
  | a, b :: bs =>
    match a.err with
    | none => (a.ret, a.res, none)
    | some _ => jiraRequest b bs

/-- Embedding of `realGHClient.request`: identical retry loop, but on
exhaustion the source runs `return nil, nil, er`, discarding the partial
result and response of the last attempt. -/
def ghRequest {α β : Type} : AttemptOut α β → List (AttemptOut α β) →
    Option α × Option β × Option String
  | a, [] =>
    match a.err with
    | none => (a.ret, a.res, none)
    | some e => (none, none, some e)
  | a, b :: bs =>
    match a.err with
    | none => (a.ret, a.res, none)
    | some _ => ghRequest b bs

/-- Embedding of `dryrunJIRAClient.CreateIssue`: prints a preview and returns
the provided issue object as is, recording no mutating call. -/
def dryrunCreateIssue (issue : JIRAIssue) : GoResult JIRAIssue × List MutCall :=
  (.ok issue, [])

/-- Embedding of `dryrunJIRAClient.UpdateIssue`: prints a preview and returns
the provided issue object as is, recording no mutating call. -/
def dryrunUpdateIssue (issue : JIRAIssue) : GoResult JIRAIssue × List MutCall :=
  (.ok issue, [])

/-- Embedding of `dryrunJIRAClient.CreateComment`: fetches the GitHub user,
renders the body with the same `fmt.Sprintf` chain as the live client (no
truncation in the dry-run path), prints a preview, and returns
`jira.Comment\x7bBody: body\x7d` without any mutating call. -/
def dryrunCreateComment (getUser : Except String GHUser)
    (comment : GHComment) : GoResult JIRAComment × List MutCall :=
  match getUser with
  | .error e => (.err e, [])
  | .ok user => (.ok { id := "", body := renderCommentBody comment user }, [])

/-- Embedding of `dryrunJIRAClient.UpdateComment`: like
`dryrunCreateComment` but returns `jira.Comment\x7bID: id, Body: body\x7d`. -/
def dryrunUpdateComment (getUser : Except String GHUser) (id : String)
    (comment : GHComment) : GoResult JIRAComment × List MutCall :=
  match getUser with
  | .error e => (.err e, [])
  | .ok user => (.ok { id := id, body := renderCommentBody comment user }, [])

/-- Numeric value of a digit string, as `strconv.Atoi` yields on the all-digit
group 1 of the pre-filter regex (the ignored error cannot fire except on
overflow, which the in-range IDs compared here never reach). -/
def atoiDigits (s : String) : Int :=
  Int.ofNat (s.data.foldl (fun acc c => acc * 10 + (c.toNat - 48)) 0)

/-- The pre-filter step of the `CompareComments` inner loop: skip any mirror
comment whose body does not match `jCommentIDRegex`, otherwise extract the
decoded GitHub ID from group 1. -/
def preFilterID (body : String) : Option Int :=
  match findSubmatch jCommentIDRe body with
  | none => none
  | some fields => some (atoiDigits ((fields 1).getD ""))

/-- First-match-wins scan of the existing mirror comments in
`CompareComments`: the first comment passing the ID-only pre-filter whose
decoded ID equals the source comment ID. -/
def findCommentMatch (ghComment : GHComment) : List JIRAComment → Option JIRAComment
  | [] => none
  | jc :: rest =>
    match preFilterID jc.body with
    | none => findCommentMatch ghComment rest
    | some i =>
      if ghComment.id == i then some jc else findCommentMatch ghComment rest

/-- Embedding of `UpdateComment` (`lib` comment reconciler): decode the mirror
body with `jCommentRegex` — the source indexes `fields[5]` without checking
the match, so a failed decode is a nil-slice index, a runtime panic — return
with no write when the decoded body equals the GitHub body, and otherwise
invoke the JIRA client comment update, whose outcome is `clientUpdate`. -/
def updateComment (ghComment : GHComment) (jComment : JIRAComment)
    (jIssue : JIRAIssue) (clientUpdate : Except String JIRAComment) :
    GoResult Unit × List MutCall :=
  match findSubmatch jCommentRe jComment.body with
  | none => (.crash, [])
  | some fields =>
    if (fields 5).getD "" == ghComment.body then (.ok (), [])
    else
      match clientUpdate with
      | .ok _ => (.ok (), [.commentUpdate jIssue.key jComment.id])
      | .error e => (.err e, [.commentUpdate jIssue.key jComment.id])

/-- The per-source-comment loop of `CompareComments`: match each GitHub
comment against the mirror comments; on a match call `UpdateComment`, whose
return value the source discards (`UpdateComment(config, ...)` bare call) —
though a panic inside it still propagates — and on no match call the client
comment create, returning its error immediately when it fails. -/
def compareCommentsLoop (jIssue : JIRAIssue)
    (updateRes : GHComment → JIRAComment → Except String JIRAComment)
    (createRes : GHComment → Except String JIRAComment) :
    List GHComment → List JIRAComment → GoResult Unit × List MutCall
  | [], _ => (.ok (), [])
  | ghc :: rest, jcs =>
    match findCommentMatch ghc jcs with
    | some jc =>
      let upd := updateComment ghc jc jIssue (updateRes ghc jc)
      match upd.1 with
      | .crash => (.crash, upd.2)
      | _ =>
        let tail := compareCommentsLoop jIssue updateRes createRes rest jcs
        (tail.1, upd.2 ++ tail.2)
    | none =>
      match createRes ghc with
      | .error e => (.err e, [.commentCreate jIssue.key])
      | .ok _ =>
        let tail := compareCommentsLoop jIssue updateRes createRes rest jcs
        (tail.1, .commentCreate jIssue.key :: tail.2)

/-- Embedding of `CompareComments`: a source issue with zero comments is a
no-op; otherwise the GitHub comments are fetched (`ghCommentsRes`, returned
errors propagate) and the loop runs against the mirror issue comment list. -/
def compareComments (gh : GHIssue) (jIssue : JIRAIssue)
    (ghCommentsRes : Except String (List GHComment))
    (updateRes : GHComment → JIRAComment → Except String JIRAComment)
    (createRes : GHComment → Except String JIRAComment) :
    GoResult Unit × List MutCall :=
  if gh.commentCount == 0 then (.ok (), [])
  else
    match ghCommentsRes with
    | .error e => (.err e, [])
    | .ok ghComments => compareCommentsLoop jIssue updateRes createRes ghComments jIssue.comments

/-- Embedding of `UpdateIssue`: when `DidIssueChange` reports a difference
the JIRA issue update is invoked (outcome `clientIssueUpdate`, errors
propagate), otherwise the write is skipped; then the issue is re-fetched
(`refreshed`) and `CompareComments` runs on its current comment list. -/
def updateIssuePass (gh : GHIssue) (j : JIRAIssue)
    (clientIssueUpdate : Except String JIRAIssue)
    (refreshed : Except String JIRAIssue)
    (ghCommentsRes : Except String (List GHComment))
    (updateRes : GHComment → JIRAComment → Except String JIRAComment)
    (createRes : GHComment → Except String JIRAComment) :
    GoResult Unit × List MutCall :=
  let afterWrite : GoResult Unit × List MutCall :=
    match refreshed with
    | .error e => (.err e, [])
    | .ok cur => compareComments gh cur ghCommentsRes updateRes createRes
  if didIssueChange gh j then
    match clientIssueUpdate with
    | .error e => (.err e, [.issueUpdate j.key])
    | .ok _ => (afterWrite.1, .issueUpdate j.key :: afterWrite.2)
  else afterWrite

/-- The mirror lookup of the `CompareIssues` outer loop:
`id, _ := jIssue.Fields.Unknowns.Int(key)` leaves `id` zero when the custom
field cannot be read, and the first mirror issue whose (defaulted) ID equals
the GitHub issue ID wins. -/
def findIssueMatch (gh : GHIssue) : List JIRAIssue → Option JIRAIssue
  | [] => none
  | j :: rest =>
    if gh.id == j.ghID.getD 0 then some j else findIssueMatch gh rest

/-- The per-source-issue loop of `CompareIssues`: per-issue update/create
outcomes (`updateRes`/`createRes`, covering the whole per-issue reconciliation
including comments) are logged and dropped; the loop always proceeds to the
next issue and the recorded call notes which client entry point was taken. -/
def compareIssuesLoop (jIssues : List JIRAIssue)
    (updateRes : GHIssue → JIRAIssue → Except String Unit)
    (createRes : GHIssue → Except String Unit) :
    List GHIssue → Except String Unit × List MutCall
  | [] => (.ok (), [])
  | gh :: rest =>
    match findIssueMatch gh jIssues with
    | some j =>
      let _dropped := updateRes gh j
      let tail := compareIssuesLoop jIssues updateRes createRes rest
      (tail.1, .issueUpdate j.key :: tail.2)
    | none =>
      let _dropped := createRes gh
      let tail := compareIssuesLoop jIssues updateRes createRes rest
      (tail.1, .issueCreate :: tail.2)

/-- Embedding of `CompareIssues`: the GitHub enumeration (`ghRes`) and the
JIRA enumeration (`jiraList`, fed the fetched GitHub IDs) propagate their
errors; an empty GitHub list is an early success; otherwise the outer loop
runs and the function returns nil regardless of per-issue outcomes. -/
def compareIssues (ghRes : Except String (List GHIssue))
    (jiraList : List Int → Except String (List JIRAIssue))
    (updateRes : GHIssue → JIRAIssue → Except String Unit)
    (createRes : GHIssue → Except String Unit) :
    Except String Unit × List MutCall :=
  match ghRes with
  | .error e => (.error e, [])
  | .ok ghIssues =>
    if ghIssues.isEmpty then (.ok (), [])
    else
      match jiraList (ghIssues.map (fun g => g.id)) with
      | .error e => (.error e, [])
      | .ok jIssues => compareIssuesLoop jIssues updateRes createRes ghIssues

/-! Concrete fixtures used by counterexamples and witnesses. -/

/-- A GitHub comment fixture: ID 42, single-line body. -/
def exComment : GHComment :=
  { id := 42, userLogin := "alice", body := "hello", createdAt := "16:27 PM, April 17 2019" }

/-- A GitHub user without a display name (`GetName()` empty). -/
def exUserNoName : GHUser := { login := "alice", name := "" }

/-- A GitHub user with a display name. -/
def exUserNamed : GHUser := { login := "alice", name := "Alice W" }

/-- A mirror comment generated for `exComment` by a user without a display
name: it passes the ID pre-filter but the full template regex cannot match it
(the ` \(` before the display-name group is mandatory). -/
def exMirrorCommentNoName : JIRAComment :=
  { id := "10001", body := renderCommentBody exComment exUserNoName }

/-- A mirror comment generated for `exComment` by a user with a display name:
the full template regex matches it and group 5 is the original body. -/
def exMirrorCommentNamed : JIRAComment :=
  { id := "10001", body := renderCommentBody exComment exUserNamed }

/-- A second GitHub comment, unmatched by any fixture mirror comment. -/
def exComment2 : GHComment :=
  { id := 77, userLogin := "bob", body := "more", createdAt := "10:00 AM, May 1 2019" }

/-- A mirror issue whose mirrored fields all equal the fields of `exGHIssue`
(readable custom fields, labels joined in source order). -/
def exMirror : JIRAIssue :=
  { key := "PROJ-1", id := "1000", summary := "T", description := "B",
    ghID := some 7, ghStatus := some "open", ghReporter := some "alice",
    ghLabels := some "bug,p1", comments := [exMirrorCommentNamed] }

/-- The GitHub issue mirrored by `exMirror`, with one comment. -/
def exGHIssue : GHIssue :=
  { id := 7, number := 1, title := "T", body := "B", state := "open",
    userLogin := "alice", labels := ["bug", "p1"], commentCount := 1 }

/-- A JIRA server fixture that accepts every mutating call. -/
def exServer : JIRAServer :=
  { addCommentResp := fun _ body => .ok { id := "20001", body := body },
    putCommentResp := fun _ id body => .ok { id := id, body := body } }

/-- The list of GitHub IDs `0, 1, ..., n-1`. -/
def idList (n : Nat) : List Int :=
  (List.range n).map Int.ofNat

/-! Helper lemmas shared by the claim theorems. -/

/-- When every mirrored field carries exactly the corresponding source value,
the diff reports no change. -/
theorem didIssueChange_eq_false (gh : GHIssue) (j : JIRAIssue)
    (hSum : j.summary = gh.title) (hDesc : j.description = gh.body)
    (hStat : j.ghStatus = some gh.state) (hRep : j.ghReporter = some gh.userLogin)
    (hLab : j.ghLabels = some (joinLabels gh.labels)) :
    didIssueChange gh j = false := by
  simp [didIssueChange, hSum, hDesc, hStat, hRep, hLab]

/-- When the mirror comment body decodes and its group 5 equals the source
body, `UpdateComment` returns without any write. -/
theorem updateComment_equal_body (ghc : GHComment) (jc : JIRAComment)
    (jIssue : JIRAIssue) (u : Except String JIRAComment)
    (h : reGroup jCommentRe jc.body 5 = some ghc.body) :
    updateComment ghc jc jIssue u = (.ok (), []) := by
  unfold updateComment
  cases hf : findSubmatch jCommentRe jc.body with
  | none =>
    rw [reGroup, hf] at h
    exact absurd h (by simp)
  | some fields =>
    have h5 : fields 5 = some ghc.body := by rw [reGroup, hf] at h; exact h
    simp [h5]

/-- When every source comment finds a mirror match whose decoded body equals
the source body, the comment loop performs no writes and succeeds. -/
theorem compareCommentsLoop_no_changes (jIssue : JIRAIssue)
    (u : GHComment → JIRAComment → Except String JIRAComment)
    (c : GHComment → Except String JIRAComment)
    (ghcs : List GHComment) (jcs : List JIRAComment)
    (h : ∀ ghc ∈ ghcs, ∃ jc, findCommentMatch ghc jcs = some jc ∧
        reGroup jCommentRe jc.body 5 = some ghc.body) :
    compareCommentsLoop jIssue u c ghcs jcs = (.ok (), []) := by
  induction ghcs with
  | nil => rfl
  | cons ghc rest ih =>
    obtain ⟨jc, hm, hg⟩ := h ghc (by simp)
    have hrest := ih (fun x hx => h x (List.mem_cons_of_mem _ hx))
    simp only [compareCommentsLoop, hm, updateComment_equal_body ghc jc jIssue (u ghc jc) hg,
      hrest, List.append_nil]

/-- When every mirrored field matches and every source comment decodes to an
equal mirror body, `CompareComments` performs no writes and succeeds. -/
theorem compareComments_no_changes (gh : GHIssue) (cur : JIRAIssue)
    (ghComments : List GHComment)
    (u : GHComment → JIRAComment → Except String JIRAComment)
    (c : GHComment → Except String JIRAComment)
    (hCom : ∀ ghc ∈ ghComments, ∃ jc, findCommentMatch ghc cur.comments = some jc ∧
        reGroup jCommentRe jc.body 5 = some ghc.body) :
    compareComments gh cur (.ok ghComments) u c = (.ok (), []) := by
  unfold compareComments
  by_cases hc : (gh.commentCount == 0) = true
  · simp [hc]
  · simp only [hc, Bool.false_eq_true, if_false]
    exact compareCommentsLoop_no_changes cur u c ghComments cur.comments hCom

/-- C1: for a matched source/mirror issue pair where every mirrored field
carries exactly the source value and every source comment matches a mirror
comment whose decoded body equals the source body, the second reconciliation
pass of that issue performs zero mutating calls: the diff is empty so the
issue write is skipped, and every comment comparison returns without a
write. -/
theorem c1_no_change_no_writes (gh : GHIssue) (j cur : JIRAIssue)
    (ciu : Except String JIRAIssue) (ghComments : List GHComment)
    (updateRes : GHComment → JIRAComment → Except String JIRAComment)
    (createRes : GHComment → Except String JIRAComment)
    (hSum : j.summary = gh.title) (hDesc : j.description = gh.body)
    (hStat : j.ghStatus = some gh.state) (hRep : j.ghReporter = some gh.userLogin)
    (hLab : j.ghLabels = some (joinLabels gh.labels))
    (hCom : ∀ ghc ∈ ghComments, ∃ jc, findCommentMatch ghc cur.comments = some jc ∧
        reGroup jCommentRe jc.body 5 = some ghc.body) :
    didIssueChange gh j = false ∧
    updateIssuePass gh j ciu (.ok cur) (.ok ghComments) updateRes createRes = (.ok (), []) := by
  have hd := didIssueChange_eq_false gh j hSum hDesc hStat hRep hLab
  refine ⟨hd, ?_⟩
  unfold updateIssuePass
  rw [hd]
  simp only [Bool.false_eq_true, if_false]
  exact compareComments_no_changes gh cur ghComments updateRes createRes hCom

/-- Witness for the C1 theorem at a concrete fixture: a mirror issue equal to
its source on every mirrored field, and one comment pair whose mirror body
decodes back to the source body. -/
theorem c1_no_change_no_writes_witness :
    didIssueChange exGHIssue exMirror = false ∧
    updateIssuePass exGHIssue exMirror (.ok exMirror) (.ok exMirror) (.ok [exComment])
      (fun _ _ => .ok { id := "", body := "" }) (fun _ => .ok { id := "", body := "" })
      = (.ok (), []) :=
  c1_no_change_no_writes exGHIssue exMirror exMirror (.ok exMirror) [exComment] _ _
    rfl rfl rfl rfl rfl
    (by
      intro ghc hg
      rw [List.mem_singleton] at hg
      subst hg
      exact ⟨exMirrorCommentNamed, by decide, by decide⟩)

/-- C2: the render/decode round-trip fails on the very cases the claim
includes. A body rendered for an author without a display name does not
match `jCommentRegex` at all (the ` \(` before the display-name group is not
optional); with a display name, group 3 captures the name with a trailing
closing parenthesis; and a body containing a newline never matches. -/
theorem c2_roundtrip_fails :
    reMatches jCommentRe (renderCommentBody exComment exUserNoName) = false ∧
    (exUserNamed.name = "Alice W" ∧
     reGroup jCommentRe (renderCommentBody exComment exUserNamed) 3 = some "Alice W)") ∧
    reMatches jCommentRe
      (renderCommentBody { exComment with body := "line1\nline2" } exUserNamed) = false := by
  decide

/-- A mirror issue whose mirrored fields equal `c3Source` except for the
labels custom field, which reads successfully but differs. -/
def c3Mirror : JIRAIssue :=
  { key := "PROJ-1", id := "1000", summary := "T", description := "B",
    ghID := some 7, ghStatus := some "open", ghReporter := some "alice",
    ghLabels := some "bug", comments := [] }

/-- The source issue mirrored by `c3Mirror`, with labels `["p1"]`. -/
def c3Source : GHIssue :=
  { id := 7, number := 1, title := "T", body := "B", state := "open",
    userLogin := "alice", labels := ["p1"], commentCount := 0 }

/-- `c3Mirror` with an unreadable labels custom field. -/
def c3MirrorNoLabels : JIRAIssue := { c3Mirror with ghLabels := none }

/-- `c3Source` with no labels. -/
def c3SourceNoLabels : GHIssue := { c3Source with labels := [] }

/-- C3: the labels clause of `DidIssueChange` uses `err != nil &&` where the
other fields use `||`, so a readable labels field that differs from the
source join is never reported as a change, and an unreadable field is not
uniformly treated as differing (no change is reported when the source label
join is empty). -/
theorem c3_labels_diff_unreported :
    (c3Mirror.ghLabels = some "bug" ∧ joinLabels c3Source.labels = "p1" ∧
     didIssueChange c3Source c3Mirror = false) ∧
    (c3MirrorNoLabels.ghLabels = none ∧
     didIssueChange c3SourceNoLabels c3MirrorNoLabels = false) := by
  decide

/-- C4 counterexample: with exactly 100 source IDs the guard
`len(ids) < maxJQLIssueLength` is false, so the fetch-all path is taken, not
the JQL id-membership path the claim asserts. -/
theorem c4_boundary_counterexample :
    (idList 100).length = 100 ∧ listIssuesUsesJQLFilter (idList 100) = false := by
  decide

/-- C4 (amended): `ListIssues` uses the JQL id-membership query exactly when
there are at most 99 source IDs; with 100 or more it fetches the project
issues unfiltered and applies the ID-membership filter client-side. -/
theorem c4_threshold_amended (ids : List Int) :
    (listIssuesUsesJQLFilter ids = true ↔ ids.length ≤ 99) ∧
    (ids.length ≤ 99 → ∀ fetched, listIssuesResult ids fetched = fetched) ∧
    (100 ≤ ids.length → ∀ fetched, listIssuesResult ids fetched =
      fetched.filter (fun v =>
        match v.ghID with
        | some i => ids.contains i
        | none => false)) := by
  refine ⟨?_, ?_, ?_⟩
  · simp only [listIssuesUsesJQLFilter, maxJQLIssueLength, decide_eq_true_eq]
    omega
  · intro h fetched
    rw [listIssuesResult, if_pos (show ids.length < maxJQLIssueLength by
      rw [maxJQLIssueLength]; omega)]
  · intro h fetched
    rw [listIssuesResult,
      if_neg (show ¬ ids.length < maxJQLIssueLength by rw [maxJQLIssueLength]; omega)]

/-- Witness for the amended C4 theorem: 99 IDs use the query path, and with
100 IDs the client-side filter is applied to the fetched issues. -/
theorem c4_threshold_amended_witness :
    listIssuesUsesJQLFilter (idList 99) = true ∧
    listIssuesResult (idList 100) [exMirror] =
      [exMirror].filter (fun v =>
        match v.ghID with
        | some i => (idList 100).contains i
        | none => false) :=
  ⟨(c4_threshold_amended (idList 99)).1.mpr (by decide),
   (c4_threshold_amended (idList 100)).2.2 (by decide) [exMirror]⟩

/-- C5: a mirror comment that passes the ID-only pre-filter with the matching
decoded ID but fails the full template decode makes `UpdateComment` index
`fields[5]` on a nil slice — a panic, not a non-fatal skip — and the panic
aborts the remaining comments of the issue (here `exComment2` is never
processed and no create call is recorded for it). -/
theorem c5_decode_failure_panics :
    (preFilterID exMirrorCommentNoName.body = some exComment.id ∧
     reMatches jCommentRe exMirrorCommentNoName.body = false) ∧
    updateComment exComment exMirrorCommentNoName exMirror
      (.ok { id := "10001", body := "x" }) = (.crash, []) ∧
    compareCommentsLoop exMirror (fun _ _ => .ok { id := "10001", body := "x" })
      (fun _ => .ok { id := "10002", body := "y" })
      [exComment, exComment2] [exMirrorCommentNoName] = (.crash, []) := by
  decide

/-- The outer issue loop always reports success. -/
theorem compareIssuesLoop_ok (jIssues : List JIRAIssue)
    (u : GHIssue → JIRAIssue → Except String Unit) (c : GHIssue → Except String Unit)
    (ghIssues : List GHIssue) :
    (compareIssuesLoop jIssues u c ghIssues).1 = .ok () := by
  induction ghIssues with
  | nil => rfl
  | cons gh rest ih =>
    simp only [compareIssuesLoop]
    cases hm : findIssueMatch gh jIssues with
    | some j => simpa using ih
    | none => simpa using ih

/-- C6: when both initial enumerations succeed, `CompareIssues` returns nil
regardless of the outcome of every per-issue update/create (covering comment
reconciliation inside), because the loop logs those errors and drops them. -/
theorem c6_per_issue_failures_not_fatal (ghIssues : List GHIssue)
    (jIssues : List JIRAIssue)
    (u : GHIssue → JIRAIssue → Except String Unit) (c : GHIssue → Except String Unit) :
    (compareIssues (.ok ghIssues) (fun _ => .ok jIssues) u c).1 = .ok () := by
  unfold compareIssues
  by_cases he : ghIssues.isEmpty = true
  · simp [he]
  · simp only [he, Bool.false_eq_true, if_false]
    exact compareIssuesLoop_ok jIssues u c ghIssues

/-- C7: the truncation guard of `realJIRAClient.UpdateComment` is inverted
(`len(body) < maxBodyLength` instead of `>=`), so a rendered body shorter
than the limit triggers an out-of-range slice — a runtime panic before any
request is built — while the same body goes through `CreateComment`
unharmed. -/
theorem c7_update_truncation_crashes :
    ((renderCommentBody exComment exUserNamed).length < maxBodyLength ∧
     updateCommentTrunc (renderCommentBody exComment exUserNamed) = none ∧
     realUpdateComment exServer (.ok exUserNamed) exMirror "10001" exComment = (.crash, [])) ∧
    realCreateComment exServer (.ok exUserNamed) exMirror exComment =
      (.ok { id := "20001", body := renderCommentBody exComment exUserNamed },
       [.commentCreate "PROJ-1"]) := by
  decide

/-- A first failing attempt with partial result and response. -/
def exAttempt1 : AttemptOut Nat Nat := { ret := some 1, res := some 500, err := some "boom1" }

/-- A second failing attempt with partial result and response. -/
def exAttempt2 : AttemptOut Nat Nat := { ret := some 2, res := some 503, err := some "boom2" }

/-- C8 counterexample: when every attempt fails, the GitHub `request` runs
`return nil, nil, er`, discarding the partial result and response the last
attempt produced, contrary to the claim that both call paths return them. -/
theorem c8_github_discards_partial :
    exAttempt2.ret = some 2 ∧ exAttempt2.res = some 503 ∧
    ghRequest exAttempt1 [exAttempt2] = (none, none, some "boom2") := by
  decide

/-- C8 (amended): when every attempt fails until the budget is spent, both
wrappers return the non-nil last error; the JIRA path returns it together
with the last attempt's partial result and response, while the GitHub path
returns nil result and nil response. -/
theorem c8_request_exhausted {α β : Type} (first : AttemptOut α β)
    (rest : List (AttemptOut α β))
    (h : ∀ a ∈ first :: rest, a.err.isSome) :
    jiraRequest first rest =
      ((rest.getLastD first).ret, (rest.getLastD first).res, (rest.getLastD first).err) ∧
    (rest.getLastD first).err.isSome ∧
    ghRequest first rest = (none, none, (rest.getLastD first).err) := by
  induction rest generalizing first with
  | nil =>
    have h1 := h first (by simp)
    cases he : first.err with
    | none => rw [he] at h1; simp at h1
    | some e =>
      refine ⟨?_, ?_, ?_⟩ <;> simp [jiraRequest, ghRequest, he, List.getLastD]
  | cons b bs ih =>
    cases he : first.err with
    | none =>
      have h1 := h first (by simp)
      rw [he] at h1; simp at h1
    | some e =>
      have hrec := ih b (fun a ha => h a (List.mem_cons_of_mem _ ha))
      simp only [List.getLastD_cons]
      simpa [jiraRequest, ghRequest, he] using hrec

/-- Witness for the amended C8 theorem on a concrete two-attempt failing
sequence. -/
theorem c8_request_exhausted_witness :
    jiraRequest exAttempt1 [exAttempt2] = (some 2, some 503, some "boom2") ∧
    ghRequest exAttempt1 [exAttempt2] = (none, none, some "boom2") := by
  have h := c8_request_exhausted exAttempt1 [exAttempt2] (by decide)
  exact ⟨h.1.trans (by decide), h.2.2.trans (by decide)⟩

/-- C9: with dry-run enabled the mutating client methods record no mutating
call and return the would-be values — the input issue as is for issue
create/update, and a comment whose body is the rendered template for comment
create/update. -/
theorem c9_dryrun_returns_would_be_values (issue : JIRAIssue) (comment : GHComment)
    (user : GHUser) (id : String) (getUser : Except String GHUser)
    (h : getUser = .ok user) :
    dryrunCreateIssue issue = (.ok issue, []) ∧
    dryrunUpdateIssue issue = (.ok issue, []) ∧
    dryrunCreateComment getUser comment =
      (.ok { id := "", body := renderCommentBody comment user }, []) ∧
    dryrunUpdateComment getUser id comment =
      (.ok { id := id, body := renderCommentBody comment user }, []) := by
  subst h
  exact ⟨rfl, rfl, rfl, rfl⟩

/-- Witness for the C9 theorem at concrete fixtures. -/
theorem c9_dryrun_witness :
    dryrunCreateIssue exMirror = (.ok exMirror, []) ∧
    dryrunUpdateIssue exMirror = (.ok exMirror, []) ∧
    dryrunCreateComment (.ok exUserNamed) exComment =
      (.ok { id := "", body := renderCommentBody exComment exUserNamed }, []) ∧
    dryrunUpdateComment (.ok exUserNamed) "10001" exComment =
      (.ok { id := "10001", body := renderCommentBody exComment exUserNamed }, []) :=
  c9_dryrun_returns_would_be_values exMirror exComment exUserNamed "10001" (.ok exUserNamed) rfl

/-- The only parts of an `UpdateComment` run that the comment loop inspects —
the recorded calls and whether it panicked — do not depend on the client
update outcome: the source discards the returned error. -/
theorem updateComment_client_independent (ghc : GHComment) (jc : JIRAComment)
    (jIssue : JIRAIssue) (u1 u2 : Except String JIRAComment) :
    (updateComment ghc jc jIssue u1).2 = (updateComment ghc jc jIssue u2).2 ∧
    ((updateComment ghc jc jIssue u1).1 = .crash ↔
      (updateComment ghc jc jIssue u2).1 = .crash) := by
  unfold updateComment
  cases findSubmatch jCommentRe jc.body with
  | none => simp
  | some fields =>
    by_cases h : ((fields 5).getD "" == ghc.body) = true
    · simp [h]
    · cases u1 <;> cases u2 <;> simp [h]

/-- C10: within one issue's comment pass, a failure from the client comment
create aborts the loop at once (the error is returned and no later source
comment is processed), while the client comment update outcome never
influences the loop at all — `UpdateComment`'s return value is dropped at the
call site, so runs differing only in the update outcomes are identical. -/
theorem c10_create_aborts_update_ignored :
    (∀ (jIssue : JIRAIssue)
       (u1 u2 : GHComment → JIRAComment → Except String JIRAComment)
       (c : GHComment → Except String JIRAComment)
       (ghcs : List GHComment) (jcs : List JIRAComment),
       compareCommentsLoop jIssue u1 c ghcs jcs = compareCommentsLoop jIssue u2 c ghcs jcs) ∧
    (∀ (jIssue : JIRAIssue)
       (u : GHComment → JIRAComment → Except String JIRAComment)
       (c : GHComment → Except String JIRAComment)
       (ghc : GHComment) (rest : List GHComment) (jcs : List JIRAComment) (e : String),
       findCommentMatch ghc jcs = none → c ghc = .error e →
       compareCommentsLoop jIssue u c (ghc :: rest) jcs =
         (.err e, [.commentCreate jIssue.key])) := by
  constructor
  · intro jIssue u1 u2 c ghcs jcs
    induction ghcs with
    | nil => rfl
    | cons ghc rest ih =>
      simp only [compareCommentsLoop]
      cases hm : findCommentMatch ghc jcs with
      | none => cases c ghc <;> simp [ih]
      | some jc =>
        obtain ⟨hcalls, hcrash⟩ :=
          updateComment_client_independent ghc jc jIssue (u1 ghc jc) (u2 ghc jc)
        rcases h1 : (updateComment ghc jc jIssue (u1 ghc jc)).1 with v1 | e1 | _ <;>
          rcases h2 : (updateComment ghc jc jIssue (u2 ghc jc)).1 with v2 | e2 | _ <;>
          simp_all [ih]
  · intro jIssue u c ghc rest jcs e hm hc
    simp only [compareCommentsLoop, hm, hc]

/-- Witness for the C10 theorem: a failing create aborts with its error and a
single create call, and two runs differing only in a failing versus
succeeding update outcome coincide. -/
theorem c10_witness :
    compareCommentsLoop exMirror (fun _ _ => .error "ub") (fun _ => .error "cb")
      [exComment2] [] = (.err "cb", [.commentCreate exMirror.key]) ∧
    compareCommentsLoop exMirror (fun _ _ => .error "ub") (fun _ => .ok { id := "", body := "" })
      [exComment] [exMirrorCommentNamed] =
      compareCommentsLoop exMirror (fun _ _ => .ok { id := "", body := "" })
        (fun _ => .ok { id := "", body := "" }) [exComment] [exMirrorCommentNamed] :=
  ⟨c10_create_aborts_update_ignored.2 exMirror (fun _ _ => .error "ub")
      (fun _ => .error "cb") exComment2 [] [] "cb" (by decide) rfl,
   c10_create_aborts_update_ignored.1 exMirror (fun _ _ => .error "ub")
      (fun _ _ => .ok { id := "", body := "" }) (fun _ => .ok { id := "", body := "" })
      [exComment] [exMirrorCommentNamed]⟩

end IssueSync
